import Mathlib

/-!
Verification development for the two image-annotation scripts in this
repository: `proxy4_safety_critical_embedded_systems_whitepaper/Annotate_image.py`
(class `RetroTextGenerator`) and
`C++26_Reflection-.../annotate_image.py` (class `ArticleImageGenerator`).

Conventions of the embedding:
* Pixel widths returned by the font backend (`textbbox`) are abstracted as a
  measurement function `Measure : String → FontKey → Nat`, per the scripts'
  use of PIL glyph metrics; every layout definition is parametric in it.
* Python's floor division `//` on integers is `Int.fdiv`.
* The PIL image operations used by the scripts (`Image.new`,
  `Image.alpha_composite`, `ImageDraw.text`, `rectangle`, `GaussianBlur`,
  `paste`, `rotate`) are modelled by their interface semantics: each tracks
  width/height exactly as PIL does and records the operation symbolically in
  a `Content` tree, since rasterisation itself is outside the repository.
-/

namespace Annotate

/-- The five font size tiers of `RetroTextGenerator._load_fonts`. -/
inductive FontKey
  | huge
  | large
  | medium
  | small
  | tiny
deriving DecidableEq, Repr

/-- Point sizes assigned to the tiers in `_load_fonts` (truetype branch). -/
def fontSize : FontKey → Nat
  | .huge => 72
  | .large => 54
  | .medium => 36
  | .small => 28
  | .tiny => 20

/-- The next smaller font tier, by the point-size order of `_load_fonts`
(72 > 54 > 36 > 28 > 20); `tiny` has no smaller tier. -/
def tierDown : FontKey → FontKey
  | .huge => .large
  | .large => .medium
  | .medium => .small
  | .small => .tiny
  | .tiny => .tiny

/-- Abstract text measurement: pixel width of a string at a font tier,
standing for `bbox[2] - bbox[0]` of `ImageDraw.textbbox` in
`get_text_width` / `get_text_center_x`. -/
abbrev Measure : Type := String → FontKey → Nat

/-- `RetroTextGenerator.get_text_width`: width of `text` at tier `key`.
The Python body builds a throwaway 1x1 image for the metrics query and
returns only the measured width. -/
def get_text_width (m : Measure) (text : String) (key : FontKey) : Nat :=
  m text key

/-- `RetroTextGenerator.get_text_center_x`:
`(self.width - text_width) // 2`, Python floor division. -/
def get_text_center_x (m : Measure) (width : Int) (text : String)
    (key : FontKey) : Int :=
  Int.fdiv (width - (get_text_width m text key : Int)) 2

/-- Decoration style of one drawing call in the layout:
`add_outlined_text` with its outline width, or `add_shadow_text`. -/
inductive Deco
  | outlined (outlineWidth : Nat)
  | shadow
deriving DecidableEq, Repr

/-- One drawing call issued by `generate_no_overlap_layout`: the text, the
position passed, the font tier, the fill color key, and the decoration. -/
structure DrawCmd where
  text : String
  x : Int
  y : Int
  font : FontKey
  color : String
  deco : Deco
deriving DecidableEq, Repr

/-- Segment 1 of `generate_no_overlap_layout` (the main title): if
`"MICROSOFT PROXY 4"` measured at `huge` exceeds `width - 2*margin`, emit
the two hardcoded lines `"MICROSOFT"` / `"PROXY 4"` at tier `large`, the
second 60 px below; otherwise one line at `huge`. Returns the draw calls
and the updated `current_y`. -/
def titleBlock (m : Measure) (width current_y section_height margin : Int) :
    List DrawCmd × Int :=
  let main_text := "MICROSOFT PROXY 4"
  if (get_text_width m main_text .huge : Int) > width - 2 * margin then
    let line1 := "MICROSOFT"
    let line2 := "PROXY 4"
    let line1_x := get_text_center_x m width line1 .large
    let line2_x := get_text_center_x m width line2 .large
    ([⟨line1, line1_x, current_y, .large, "bright_yellow", .outlined 3⟩,
      ⟨line2, line2_x, current_y + 60, .large, "bright_yellow", .outlined 3⟩],
     current_y + section_height * 2 + 20)
  else
    let main_x := get_text_center_x m width main_text .huge
    ([⟨main_text, main_x, current_y, .huge, "bright_yellow", .outlined 3⟩],
     current_y + section_height * 2)

/-- Segment 2 of `generate_no_overlap_layout` (the subtitle): drop from
`large` to `medium` if the text overflows at `large`. -/
def subtitleBlock (m : Measure) (width current_y margin : Int) : DrawCmd :=
  let sub_text := "EMBEDDED TEMPLATE LIBRARY"
  if (get_text_width m sub_text .large : Int) > width - 2 * margin then
    ⟨sub_text, get_text_center_x m width sub_text .medium, current_y,
      .medium, "white", .outlined 2⟩
  else
    ⟨sub_text, get_text_center_x m width sub_text .large, current_y,
      .large, "white", .outlined 2⟩

/-- Segment 3 of `generate_no_overlap_layout` (the feature callout): drop
from `medium` to `small` if the text overflows at `medium`. -/
def featureBlock (m : Measure) (width current_y margin : Int) : DrawCmd :=
  let feature_text := "ZERO-ALLOCATION POLYMORPHISM"
  if (get_text_width m feature_text .medium : Int) > width - 2 * margin then
    ⟨feature_text, get_text_center_x m width feature_text .small, current_y,
      .small, "electric_blue", .shadow⟩
  else
    ⟨feature_text, get_text_center_x m width feature_text .medium, current_y,
      .medium, "electric_blue", .shadow⟩

/-- Segment 4: the four benefit lines, 40 px apart, alternating colors. -/
def benefitBlock (m : Measure) (width current_y : Int) : List DrawCmd :=
  let benefits := ["40-60% FASTER CALLS", "ZERO HEAP ALLOCATION",
                   "DETERMINISTIC TIMING", "SAFETY-CRITICAL READY"]
  benefits.enum.map fun p =>
    ⟨p.2, get_text_center_x m width p.2 .small, current_y + (p.1 : Int) * 40,
      .small, if p.1 % 2 == 0 then "hot_red" else "chrome", .shadow⟩

/-- Segment 5: the industry tag line at a fixed 60 px from the bottom. -/
def industryBlock (m : Measure) (width height : Int) : DrawCmd :=
  let industry_text := "AEROSPACE • AUTOMOTIVE • MEDICAL • IoT"
  ⟨industry_text, get_text_center_x m width industry_text .small,
    height - 60, .small, "white", .shadow⟩

/-- Segment 6: the four corner elements at tier `tiny`. -/
def cornerBlock (width height : Int) : List DrawCmd :=
  [⟨"DO-178C", 30, 30, .tiny, "bright_yellow", .outlined 1⟩,
   ⟨"ISO 26262", width - 150, 30, .tiny, "bright_yellow", .outlined 1⟩,
   ⟨"pro::proxy<>", 30, height - 30, .tiny, "bright_yellow", .outlined 1⟩,
   ⟨"etl::array<>", width - 150, height - 30, .tiny, "bright_yellow",
     .outlined 1⟩]

/-- `RetroTextGenerator.generate_no_overlap_layout` as the ordered list of
drawing calls it issues, threading `current_y` exactly as the Python does
(`margin = 40`, `section_height = (height - 2*margin) // 8`). -/
def generate_no_overlap_layout (m : Measure) (width height : Int) :
    List DrawCmd :=
  let margin : Int := 40
  let section_height := Int.fdiv (height - 2 * margin) 8
  let current_y := margin
  let tb := titleBlock m width current_y section_height margin
  let y1 := tb.2
  let subCmd := subtitleBlock m width y1 margin
  let y2 := y1 + section_height + 10
  let featCmd := featureBlock m width y2 margin
  let y3 := y2 + section_height + 20
  let benefitCmds := benefitBlock m width y3
  let industryCmd := industryBlock m width height
  let cornerCmds := cornerBlock width height
  tb.1 ++ [subCmd] ++ [featCmd] ++ benefitCmds ++ [industryCmd] ++ cornerCmds

/-- The drawing calls of a layout whose text equals `t`, keeping only the
text, x position and font tier (the line shape of label `t`). -/
def lineShapes (cs : List DrawCmd) (t : String) :
    List (String × Int × FontKey) :=
  (cs.filter fun c => c.text == t).map fun c => (c.text, c.x, c.font)

/-! ## The PIL image surface

Pixel dimensions are tracked exactly as PIL tracks them; the pixel values
produced by each library call are recorded symbolically in a `Content`
tree, since rasterisation lives in the imaging library, outside this
repository. -/

/-- An RGBA color tuple, as the scripts' 4-tuples. -/
abbrev RGBA := Nat × Nat × Nat × Nat

/-- Symbolic pixel content of an image: one constructor per imaging-library
operation the two scripts perform. Text drawing records the font's point
size (the scripts index their `fonts` dict and pass the font object). -/
inductive Content
  | source (path : String)
  | blank (color : RGBA)
  | text (base : Content) (x y : Int) (s : String) (fontPt : Nat) (fill : RGBA)
  | rect (base : Content) (x0 y0 x1 y1 : Int) (fill : RGBA)
  | blur (base : Content) (radius : Nat)
  | comp (below above : Content)
  | pasted (base src : Content) (x y : Int) (mask : Option Content)
  | channel (c : Content) (idx : Nat)
  | rotated (c : Content) (degrees : Nat)
  | jpegRoundTrip (c : Content)

/-- An in-memory PIL image: its pixel dimensions and symbolic content. -/
structure PImage where
  width : Nat
  height : Nat
  content : Content

namespace PIL

/-- `Image.new(mode, (w, h), color)`: a fresh image of the given size. -/
def new (w h : Nat) (color : RGBA) : PImage :=
  ⟨w, h, .blank color⟩

/-- `ImageDraw.Draw(img).text((x, y), s, font, fill)`: draws in place,
the size is unchanged. -/
def drawText (i : PImage) (x y : Int) (s : String) (fontPt : Nat)
    (fill : RGBA) : PImage :=
  ⟨i.width, i.height, .text i.content x y s fontPt fill⟩

/-- `ImageDraw.Draw(img).rectangle([(x0, y0), (x1, y1)], fill)`. -/
def drawRect (i : PImage) (x0 y0 x1 y1 : Int) (fill : RGBA) : PImage :=
  ⟨i.width, i.height, .rect i.content x0 y0 x1 y1 fill⟩

/-- `img.filter(ImageFilter.GaussianBlur(r))`: same size. -/
def gaussianBlur (i : PImage) (r : Nat) : PImage :=
  ⟨i.width, i.height, .blur i.content r⟩

/-- `Image.alpha_composite(below, above)`: both arguments must share a size
(the scripts always composite layers created at `self.img.size`); the
result has that size. -/
def alphaComposite (below above : PImage) : PImage :=
  ⟨below.width, below.height, .comp below.content above.content⟩

/-- `base.paste(src, (x, y), mask)`: pastes in place, the base keeps its
size. -/
def paste (base src : PImage) (x y : Int) (mask : Option Content) : PImage :=
  ⟨base.width, base.height, .pasted base.content src.content x y mask⟩

/-- `img.rotate(90, expand=True)`: a quarter turn with expansion swaps the
two dimensions. -/
def rotate90Expand (i : PImage) : PImage :=
  ⟨i.height, i.width, .rotated i.content 90⟩

/-- `img.split()[-1]`: the alpha band of an RGBA image (band index 3). -/
def alphaChannel (i : PImage) : Content :=
  .channel i.content 3

end PIL

/-! ## `RetroTextGenerator` (proxy4 script) -/

/-- The color palette of `RetroTextGenerator.__init__`. The scripts only
ever look up keys present in the dict; absent keys (a `KeyError` in
Python) are mapped to transparent black. -/
def retroColors : String → RGBA
  | "white" => (255, 255, 255, 255)
  | "bright_yellow" => (255, 255, 100, 255)
  | "electric_blue" => (30, 144, 255, 255)
  | "hot_red" => (255, 69, 0, 255)
  | "chrome" => (220, 220, 220, 255)
  | "black" => (0, 0, 0, 255)
  | "dark_shadow" => (0, 0, 0, 220)
  | "outline_black" => (0, 0, 0, 255)
  | _ => (0, 0, 0, 0)

/-- The mutable state of a `RetroTextGenerator`: the image buffer and the
width/height/colors/fonts attributes set in `__init__` (fonts are carried
as their point sizes). -/
structure RetroTextGenerator where
  img : PImage
  width : Nat
  height : Nat
  colors : String → RGBA
  fonts : FontKey → Nat

/-- `RetroTextGenerator.__init__(image_path)`: open the source image (its
pixel size being `w × h`), convert to RGBA, cache the size, the palette and
the fonts. -/
def RetroTextGenerator.init (image_path : String) (w h : Nat) :
    RetroTextGenerator :=
  { img := ⟨w, h, .source image_path⟩, width := w, height := h,
    colors := retroColors, fonts := fontSize }

/-- `RetroTextGenerator.add_shadow_text`: draw the text on a fresh
transparent layer shifted by `shadow_offset` in the `dark_shadow` color,
blur it, draw the text on a second fresh layer in `color`, and composite
both over the image. -/
def add_shadow_text (g : RetroTextGenerator) (text : String) (x y : Int)
    (font_key : FontKey) (color : String) (shadow_offset : Int × Int)
    (shadow_blur : Nat) : RetroTextGenerator :=
  let shadow_layer := PIL.new g.img.width g.img.height (0, 0, 0, 0)
  let shadow_layer := PIL.drawText shadow_layer (x + shadow_offset.1)
      (y + shadow_offset.2) text (g.fonts font_key) (g.colors "dark_shadow")
  let shadow_layer := PIL.gaussianBlur shadow_layer shadow_blur
  let text_layer := PIL.new g.img.width g.img.height (0, 0, 0, 0)
  let text_layer := PIL.drawText text_layer x y text (g.fonts font_key)
      (g.colors color)
  { g with
    img := PIL.alphaComposite (PIL.alphaComposite g.img shadow_layer)
      text_layer }

/-- The offsets `(adj_x, adj_y)` of the outline loop of
`add_outlined_text`: both coordinates range over
`range(-outline_width, outline_width + 1)`, skipping `(0, 0)`. -/
def outlineOffsets (outline_width : Nat) : List (Int × Int) :=
  ((List.range (2 * outline_width + 1)).flatMap fun i =>
    (List.range (2 * outline_width + 1)).map fun j =>
      ((i : Int) - outline_width, (j : Int) - outline_width)).filter
    fun p => !(p.1 == 0 && p.2 == 0)

/-- `RetroTextGenerator.add_outlined_text`: draw the text at every outline
offset in the outline color on a fresh transparent layer, then at the
center in the fill color, and composite the layer over the image. -/
def add_outlined_text (g : RetroTextGenerator) (text : String) (x y : Int)
    (font_key : FontKey) (fill_color outline_color : String)
    (outline_width : Nat) : RetroTextGenerator :=
  let text_layer := PIL.new g.img.width g.img.height (0, 0, 0, 0)
  let text_layer := (outlineOffsets outline_width).foldl
      (fun l p => PIL.drawText l (x + p.1) (y + p.2) text (g.fonts font_key)
        (g.colors outline_color)) text_layer
  let text_layer := PIL.drawText text_layer x y text (g.fonts font_key)
      (g.colors fill_color)
  { g with img := PIL.alphaComposite g.img text_layer }

/-- Dispatch one drawing call of the layout to the primitive it names: the
layout's `add_outlined_text` calls all pass outline color `outline_black`,
and its `add_shadow_text` calls all use the default offset `(3, 3)` and
blur `2`. -/
def applyCmd (g : RetroTextGenerator) (c : DrawCmd) : RetroTextGenerator :=
  match c.deco with
  | .outlined ow =>
      add_outlined_text g c.text c.x c.y c.font c.color "outline_black" ow
  | .shadow => add_shadow_text g c.text c.x c.y c.font c.color (3, 3) 2

/-- `RetroTextGenerator.generate_no_overlap_layout` as a state
transformer: issue every drawing call of the layout, in order, against the
cached `self.width` / `self.height`. -/
def run_no_overlap_layout (m : Measure) (g : RetroTextGenerator) :
    RetroTextGenerator :=
  (generate_no_overlap_layout m (g.width : Int) (g.height : Int)).foldl
    applyCmd g

/-! ## `ArticleImageGenerator` (C++26 reflection script) -/

/-- The four font tiers of `ArticleImageGenerator._load_fonts`. -/
inductive AFontKey
  | title
  | subtitle
  | accent
  | small
deriving DecidableEq, Repr

/-- Point sizes of `ArticleImageGenerator._load_fonts` (truetype branch). -/
def articleFontSize : AFontKey → Nat
  | .title => 56
  | .subtitle => 28
  | .accent => 22
  | .small => 16

/-- The color scheme of `ArticleImageGenerator.__init__`; absent keys are
mapped to transparent black as in `retroColors`. -/
def articleColors : String → RGBA
  | "white" => (255, 255, 255, 255)
  | "bright_cyan" => (0, 200, 255, 255)
  | "orange" => (255, 140, 0, 255)
  | "light_blue" => (100, 180, 255, 255)
  | "dark_overlay" => (0, 0, 0, 160)
  | "shadow" => (0, 0, 0, 220)
  | "semi_white" => (255, 255, 255, 230)
  | _ => (0, 0, 0, 0)

/-- The mutable state of an `ArticleImageGenerator`. -/
structure ArticleImageGenerator where
  img : PImage
  width : Nat
  height : Nat
  colors : String → RGBA
  fonts : AFontKey → Nat

/-- `ArticleImageGenerator.__init__(image_path)`. -/
def ArticleImageGenerator.init (image_path : String) (w h : Nat) :
    ArticleImageGenerator :=
  { img := ⟨w, h, .source image_path⟩, width := w, height := h,
    colors := articleColors, fonts := articleFontSize }

/-- `ArticleImageGenerator.add_dark_panel`: a blurred semi-transparent
black rectangle from `(x, y)` to `(x + width, y + height)`, composited
over the image. -/
def add_dark_panel (g : ArticleImageGenerator) (x y w h : Int)
    (opacity : Nat) : ArticleImageGenerator :=
  let panel := PIL.new g.img.width g.img.height (0, 0, 0, 0)
  let panel := PIL.drawRect panel x y (x + w) (y + h) (0, 0, 0, opacity)
  let panel := PIL.gaussianBlur panel 2
  { g with img := PIL.alphaComposite g.img panel }

/-- The five offsets of the glow loop in `add_text_with_glow`. -/
def glowOffsets : List (Int × Int) :=
  [(0, 0), (-1, -1), (1, -1), (-1, 1), (1, 1)]

/-- `ArticleImageGenerator.add_text_with_glow`: when a glow color is given,
draw the text at the five glow offsets on a fresh layer, blur it and
composite; then draw the main text on a fresh layer and composite. -/
def add_text_with_glow (g : ArticleImageGenerator) (text : String)
    (x y : Int) (font_key : AFontKey) (color : String)
    (glow_color : Option RGBA) : ArticleImageGenerator :=
  let g1 :=
    match glow_color with
    | some gc =>
        let glow_layer := PIL.new g.img.width g.img.height (0, 0, 0, 0)
        let glow_layer := glowOffsets.foldl
            (fun l (p : Int × Int) => PIL.drawText l (x + p.1) (y + p.2) text
              (g.fonts font_key) gc) glow_layer
        let glow_layer := PIL.gaussianBlur glow_layer 3
        { g with img := PIL.alphaComposite g.img glow_layer }
    | none => g
  let text_layer := PIL.new g1.img.width g1.img.height (0, 0, 0, 0)
  let text_layer := PIL.drawText text_layer x y text (g1.fonts font_key)
      (g1.colors color)
  { g1 with img := PIL.alphaComposite g1.img text_layer }

/-- The vertical-text block of `create_article_header`: draw
`"ISO 26262 COMPLIANT"` on a 200×30 scratch image, rotate it 90° with
expansion, paste it into a fresh full-size layer at
`(5, self.height // 2 - 100)`, and composite. -/
def addVerticalText (g : ArticleImageGenerator) : ArticleImageGenerator :=
  let vertical_text_layer := PIL.new g.img.width g.img.height (0, 0, 0, 0)
  let temp_img := PIL.new 200 30 (0, 0, 0, 0)
  let temp_img := PIL.drawText temp_img 0 0 "ISO 26262 COMPLIANT"
      (g.fonts .small) (g.colors "semi_white")
  let rotated := PIL.rotate90Expand temp_img
  let vertical_text_layer := PIL.paste vertical_text_layer rotated 5
      (Int.fdiv (g.height : Int) 2 - 100) none
  { g with img := PIL.alphaComposite g.img vertical_text_layer }

/-- `ArticleImageGenerator.create_article_header`: the fixed sequence of
panels, glow texts, the vertical text and the metrics block, transcribed
in order with the script's hardcoded coordinates. -/
def create_article_header (g : ArticleImageGenerator) :
    ArticleImageGenerator :=
  let h : Int := (g.height : Int)
  let w : Int := (g.width : Int)
  let g := add_dark_panel g 20 20 500 140 140
  let g := add_text_with_glow g "C++26 REFLECTION" 40 35 .title "bright_cyan"
      (some (0, 100, 150, 100))
  let g := add_text_with_glow g "TRANSFORMS" 40 95 .title "white"
      (some (0, 100, 150, 100))
  let g := add_text_with_glow g "Automotive Code Generation" 40 155
      .subtitle "light_blue" none
  let g := add_dark_panel g 20 (h - 120) 320 100 140
  let g := add_text_with_glow g "FROM HIGH-LEVEL C++" 35 (h - 105) .accent
      "white" none
  let g := add_text_with_glow g "TO SAFETY-CERTIFIED C" 35 (h - 75) .accent
      "orange" none
  let g := add_text_with_glow g "AT COMPILE TIME" 35 (h - 45) .accent
      "bright_cyan" none
  let g := addVerticalText g
  let g := add_text_with_glow g "DRAFT STANDARD 2025" (w - 520) (h - 25)
      .small "semi_white" none
  let metrics_x := w - 280
  let metrics_y : Int := 30
  let g := add_dark_panel g (metrics_x - 10) (metrics_y - 5) 270 80 120
  let g := add_text_with_glow g "ZERO RUNTIME OVERHEAD" metrics_x metrics_y
      .small "orange" none
  let g := add_text_with_glow g "100% COMPILE-TIME" metrics_x
      (metrics_y + 25) .small "bright_cyan" none
  let g := add_text_with_glow g "MISRA-C COMPLIANT OUTPUT" metrics_x
      (metrics_y + 50) .small "white" none
  g

/-! ## Saving and reloading -/

/-- Python `str.lower()` (ASCII case folding suffices for the scripts'
file paths). -/
def lowerStr (s : String) : String :=
  String.mk (s.data.map Char.toLower)

/-- Python `str.endswith(suffix)`. -/
def endsWithStr (s suffix : String) : Bool :=
  List.isSuffixOf suffix.data s.data

/-- A file written by one of the `save` methods: a JPEG (the RGBA canvas
flattened onto white) or the RGBA image saved in another raster format. -/
inductive SavedFile
  | jpegFile (img : PImage) (quality : Nat)
  | rawFile (img : PImage)

/-- `RetroTextGenerator.save(output_path)`: for a `.jpg`/`.jpeg` path,
flatten onto a fresh white RGB image of `self.img.size` by pasting with
the alpha band as mask, and save as JPEG at quality 95; otherwise save the
RGBA image as-is. -/
def RetroTextGenerator.save (g : RetroTextGenerator)
    (output_path : String) : SavedFile :=
  if endsWithStr (lowerStr output_path) ".jpg"
      || endsWithStr (lowerStr output_path) ".jpeg" then
    let rgb_img := PIL.new g.img.width g.img.height (255, 255, 255, 255)
    let rgb_img := PIL.paste rgb_img g.img 0 0 (some (PIL.alphaChannel g.img))
    .jpegFile rgb_img 95
  else
    .rawFile g.img

/-- `ArticleImageGenerator.save(output_path)`: same flattening; the mask
condition `len(self.img.split()) > 3` holds because the canvas was
converted to RGBA (four bands) at load. -/
def ArticleImageGenerator.save (g : ArticleImageGenerator)
    (output_path : String) : SavedFile :=
  if endsWithStr (lowerStr output_path) ".jpg"
      || endsWithStr (lowerStr output_path) ".jpeg" then
    let rgb_img := PIL.new g.img.width g.img.height (255, 255, 255, 255)
    let rgb_img := PIL.paste rgb_img g.img 0 0 (some (PIL.alphaChannel g.img))
    .jpegFile rgb_img 95
  else
    .rawFile g.img

/-- Reopening a saved file with `Image.open`: JPEG encoding and decoding
changes pixel values but preserves the pixel dimensions of the encoded
image exactly (the imaging library's format contract); other formats
reload as saved. -/
def loadSaved : SavedFile → PImage
  | .jpegFile i _ => ⟨i.width, i.height, .jpegRoundTrip i.content⟩
  | .rawFile i => i

/-! ## Operation sequences over the generator states -/

/-- One public drawing operation of `RetroTextGenerator`. -/
inductive RetroOp
  | shadowText (text : String) (x y : Int) (f : FontKey) (color : String)
      (shadow_offset : Int × Int) (shadow_blur : Nat)
  | outlinedText (text : String) (x y : Int) (f : FontKey)
      (fill_color outline_color : String) (outline_width : Nat)
  | layout (m : Measure)

/-- Execute one `RetroOp` against the generator state. -/
def applyRetroOp (g : RetroTextGenerator) : RetroOp → RetroTextGenerator
  | .shadowText t x y f c off blurR => add_shadow_text g t x y f c off blurR
  | .outlinedText t x y f fc oc ow => add_outlined_text g t x y f fc oc ow
  | .layout m => run_no_overlap_layout m g

/-- Execute a sequence of `RetroOp`s in order. -/
def runRetro (g : RetroTextGenerator) (ops : List RetroOp) :
    RetroTextGenerator :=
  ops.foldl applyRetroOp g

/-- One public operation of `ArticleImageGenerator`. -/
inductive ArticleOp
  | darkPanel (x y w h : Int) (opacity : Nat)
  | glowText (text : String) (x y : Int) (f : AFontKey) (color : String)
      (glow_color : Option RGBA)
  | header

/-- Execute one `ArticleOp` against the generator state. -/
def applyArticleOp (g : ArticleImageGenerator) :
    ArticleOp → ArticleImageGenerator
  | .darkPanel x y w h o => add_dark_panel g x y w h o
  | .glowText t x y f c gc => add_text_with_glow g t x y f c gc
  | .header => create_article_header g

/-- Execute a sequence of `ArticleOp`s in order. -/
def runArticle (g : ArticleImageGenerator) (ops : List ArticleOp) :
    ArticleImageGenerator :=
  ops.foldl applyArticleOp g

/-- A `RetroTextGenerator` method call that is either a drawing operation
or one of the two measurement queries (`get_text_width`,
`get_text_center_x`). -/
inductive MixedOp
  | draw (o : RetroOp)
  | measureWidth (text : String) (key : FontKey)
  | measureCenterX (text : String) (key : FontKey)

/-- The drawing operation of a `MixedOp`, if it is one. -/
def drawOf : MixedOp → Option RetroOp
  | .draw o => some o
  | .measureWidth _ _ => none
  | .measureCenterX _ _ => none

/-- Execute a mixed sequence: drawing operations update the state;
measurement calls evaluate their result (a bounding-box query against a
throwaway 1×1 image) and discard it. -/
def runMixed (m : Measure) (g : RetroTextGenerator) :
    List MixedOp → RetroTextGenerator
  | [] => g
  | .draw o :: rest => runMixed m (applyRetroOp g o) rest
  | .measureWidth t k :: rest =>
      let _w := get_text_width m t k
      runMixed m g rest
  | .measureCenterX t k :: rest =>
      let _x := get_text_center_x m (g.width : Int) t k
      runMixed m g rest

/-! ## The two `main()` entry points -/

/-- The observable outcome of running a `main()`: the lines printed to
standard output, the process exit status, whether the `try` block ran
(opening the image, drawing, saving are all inside it), and the output
file written, if any. -/
structure MainResult where
  output : List String
  exitCode : Nat
  attemptedProcessing : Bool
  written : Option SavedFile

/-- `main()` of `Annotate_image.py` (proxy4 script). The existence check on
the input path runs first and aborts the run; otherwise the `try` block
prints a loading message and runs construct → layout → save, abstracted
here as `steps` (`Except.error e` when any of these raises an exception
rendering as `e`; `Except.ok f` when the save writes file `f`). A caught
exception is printed and `main` returns normally, so the interpreter exits
with status 0 in every case. -/
def proxy_main (input_image output_image : String) (inputExists : Bool)
    (steps : Except String SavedFile) : MainResult :=
  if !inputExists then
    { output := ["Error: Input file '" ++ input_image ++ "' not found!"],
      exitCode := 0, attemptedProcessing := false, written := none }
  else
    match steps with
    | .ok f =>
        { output :=
            ["Loading image and generating NO-OVERLAP 1950s-style text overlay...",
             "Success! No-overlap styled image saved as: " ++ output_image],
          exitCode := 0, attemptedProcessing := true, written := some f }
    | .error e =>
        { output :=
            ["Loading image and generating NO-OVERLAP 1950s-style text overlay...",
             "Error processing image: " ++ e,
             "Make sure PIL (Pillow) is installed: pip install Pillow"],
          exitCode := 0, attemptedProcessing := true, written := none }

/-- `main()` of `annotate_image.py` (C++26 article script), same shape with
its own messages (the missing-file branch prints two lines, the error
branch prints no Pillow hint). -/
def article_main (input_image output_image : String) (inputExists : Bool)
    (steps : Except String SavedFile) : MainResult :=
  if !inputExists then
    { output := ["Error: Input file '" ++ input_image ++ "' not found!",
        "Please save the Grok image as 'automotive_visualization.jpg' in the same directory"],
      exitCode := 0, attemptedProcessing := false, written := none }
  else
    match steps with
    | .ok f =>
        { output := ["Creating article header with optimized text placement...",
             "Success! Article header saved as: " ++ output_image],
          exitCode := 0, attemptedProcessing := true, written := some f }
    | .error e =>
        { output := ["Creating article header with optimized text placement...",
             "Error processing image: " ++ e],
          exitCode := 0, attemptedProcessing := true, written := none }

/-! ## Concrete measurement tables for witnesses -/

/-- A measurement table making the main title overflow at `huge` on a
1024-wide canvas (1000 > 944). -/
def mC1 : Measure := fun t k =>
  match k, t with
  | .huge, "MICROSOFT PROXY 4" => 1000
  | .large, "MICROSOFT" => 600
  | .large, "PROXY 4" => 420
  | _, _ => 100

/-- A second copy of the overflowing-title table. -/
def mC2 : Measure := fun t k =>
  match k, t with
  | .huge, "MICROSOFT PROXY 4" => 1000
  | .large, "MICROSOFT" => 600
  | .large, "PROXY 4" => 420
  | _, _ => 100

/-- A measurement table under which every label fits (width 100 ≤ 944). -/
def mC3 : Measure := fun _ _ => 100

/-- A measurement table under which every label overflows at every tier
(width 10000 > 944). -/
def mC4 : Measure := fun _ _ => 10000

/-! ## Helper lemmas -/

theorem applyCmd_dims (g : RetroTextGenerator) (c : DrawCmd) :
    (applyCmd g c).img.width = g.img.width ∧
    (applyCmd g c).img.height = g.img.height := by
  cases hc : c.deco <;>
    simp [applyCmd, hc, add_outlined_text, add_shadow_text,
      PIL.alphaComposite]

theorem foldlCmd_dims (cs : List DrawCmd) (g : RetroTextGenerator) :
    (cs.foldl applyCmd g).img.width = g.img.width ∧
    (cs.foldl applyCmd g).img.height = g.img.height := by
  induction cs generalizing g with
  | nil => exact ⟨rfl, rfl⟩
  | cons c cs ih =>
      have h := applyCmd_dims g c
      have h2 := ih (applyCmd g c)
      exact ⟨h2.1.trans h.1, h2.2.trans h.2⟩

theorem applyRetroOp_dims (g : RetroTextGenerator) (o : RetroOp) :
    (applyRetroOp g o).img.width = g.img.width ∧
    (applyRetroOp g o).img.height = g.img.height := by
  cases o with
  | shadowText t x y f c off b => exact ⟨rfl, rfl⟩
  | outlinedText t x y f fc oc ow => exact ⟨rfl, rfl⟩
  | layout m => exact foldlCmd_dims _ g

theorem runRetro_dims (ops : List RetroOp) (g : RetroTextGenerator) :
    (runRetro g ops).img.width = g.img.width ∧
    (runRetro g ops).img.height = g.img.height := by
  induction ops generalizing g with
  | nil => exact ⟨rfl, rfl⟩
  | cons o ops ih =>
      have h := applyRetroOp_dims g o
      have h2 := ih (applyRetroOp g o)
      exact ⟨h2.1.trans h.1, h2.2.trans h.2⟩

theorem add_dark_panel_width (g : ArticleImageGenerator) (x y w h : Int)
    (o : Nat) : (add_dark_panel g x y w h o).img.width = g.img.width := rfl

theorem add_dark_panel_height (g : ArticleImageGenerator) (x y w h : Int)
    (o : Nat) : (add_dark_panel g x y w h o).img.height = g.img.height := rfl

theorem add_text_with_glow_width (g : ArticleImageGenerator) (t : String)
    (x y : Int) (f : AFontKey) (c : String) (gc : Option RGBA) :
    (add_text_with_glow g t x y f c gc).img.width = g.img.width := by
  cases gc <;> rfl

theorem add_text_with_glow_height (g : ArticleImageGenerator) (t : String)
    (x y : Int) (f : AFontKey) (c : String) (gc : Option RGBA) :
    (add_text_with_glow g t x y f c gc).img.height = g.img.height := by
  cases gc <;> rfl

theorem addVerticalText_width (g : ArticleImageGenerator) :
    (addVerticalText g).img.width = g.img.width := rfl

theorem addVerticalText_height (g : ArticleImageGenerator) :
    (addVerticalText g).img.height = g.img.height := rfl

theorem create_article_header_dims (g : ArticleImageGenerator) :
    (create_article_header g).img.width = g.img.width ∧
    (create_article_header g).img.height = g.img.height := by
  unfold create_article_header
  simp only [add_dark_panel_width, add_dark_panel_height,
    add_text_with_glow_width, add_text_with_glow_height,
    addVerticalText_width, addVerticalText_height, and_self]

theorem applyArticleOp_dims (g : ArticleImageGenerator) (o : ArticleOp) :
    (applyArticleOp g o).img.width = g.img.width ∧
    (applyArticleOp g o).img.height = g.img.height := by
  cases o with
  | darkPanel x y w h op => exact ⟨rfl, rfl⟩
  | glowText t x y f c gc =>
      exact ⟨add_text_with_glow_width g t x y f c gc,
        add_text_with_glow_height g t x y f c gc⟩
  | header => exact create_article_header_dims g

theorem runArticle_dims (ops : List ArticleOp) (g : ArticleImageGenerator) :
    (runArticle g ops).img.width = g.img.width ∧
    (runArticle g ops).img.height = g.img.height := by
  induction ops generalizing g with
  | nil => exact ⟨rfl, rfl⟩
  | cons o ops ih =>
      have h := applyArticleOp_dims g o
      have h2 := ih (applyArticleOp g o)
      exact ⟨h2.1.trans h.1, h2.2.trans h.2⟩

/-! ## Claims -/

/-- C1 counterexample: on a 1024×768 canvas, with the main title measuring
1000 px at its requested tier `huge` (wider than 1024 − 2×40 = 944), the
layout routine does split it into the two lines, but the two emitted lines
do not keep the requested tier `huge` — contradicting the claim that the
split keeps the original font tier. -/
theorem claimC1_counterexample :
    (get_text_width mC1 "MICROSOFT PROXY 4" FontKey.huge : Int) >
      1024 - 2 * 40 ∧
    ((generate_no_overlap_layout mC1 1024 768).take 2).map DrawCmd.text =
      ["MICROSOFT", "PROXY 4"] ∧
    ¬ ∀ c ∈ (generate_no_overlap_layout mC1 1024 768).take 2,
        c.font = FontKey.huge := by
  decide

/-- C1 (amended): for every canvas and measurement under which the main
title (the one label with a designated split point) measures wider than
the available width (canvas width minus 2×40 margin) at its requested tier
`huge`, the layout routine splits it into two lines drawn one font tier
below the requested tier (`large`, not `huge`), stacking the second line a
fixed 60-pixel offset below the first, each line independently centered. -/
theorem claimC1_split_drops_one_tier (m : Measure) (w h : Int)
    (hov : (get_text_width m "MICROSOFT PROXY 4" FontKey.huge : Int) >
      w - 2 * 40) :
    (generate_no_overlap_layout m w h).take 2 =
      [⟨"MICROSOFT", get_text_center_x m w "MICROSOFT" (tierDown .huge), 40,
         tierDown .huge, "bright_yellow", .outlined 3⟩,
       ⟨"PROXY 4", get_text_center_x m w "PROXY 4" (tierDown .huge), 40 + 60,
         tierDown .huge, "bright_yellow", .outlined 3⟩] := by
  simp only [generate_no_overlap_layout, titleBlock]
  rw [if_pos hov]
  simp [tierDown]

/-- C1 witness: the amended statement evaluated on the concrete
overflowing table `mC1` at canvas 1024×768. -/
theorem claimC1_witness :
    (get_text_width mC1 "MICROSOFT PROXY 4" FontKey.huge : Int) >
      1024 - 2 * 40 ∧
    (generate_no_overlap_layout mC1 1024 768).take 2 =
      [⟨"MICROSOFT", 212, 40, .large, "bright_yellow", .outlined 3⟩,
       ⟨"PROXY 4", 302, 100, .large, "bright_yellow", .outlined 3⟩] :=
  ⟨by decide,
   (claimC1_split_drops_one_tier mC1 1024 768 (by decide)).trans (by decide)⟩

/-- C2: on a 1024×768 canvas, whenever `"MICROSOFT PROXY 4"` measures
wider than 944 px at tier `huge`, the layout routine's first two drawing
calls are `"MICROSOFT"` and `"PROXY 4"` at tier `large`, the second placed
exactly 60 px below the first (y = 40 and 40 + 60), each line
independently horizontally centered. -/
theorem claimC2_end_to_end_split (m : Measure)
    (hov : (get_text_width m "MICROSOFT PROXY 4" FontKey.huge : Int) > 944) :
    (generate_no_overlap_layout m 1024 768).take 2 =
      [⟨"MICROSOFT", get_text_center_x m 1024 "MICROSOFT" .large, 40,
         .large, "bright_yellow", .outlined 3⟩,
       ⟨"PROXY 4", get_text_center_x m 1024 "PROXY 4" .large, 40 + 60,
         .large, "bright_yellow", .outlined 3⟩] := by
  simp only [generate_no_overlap_layout, titleBlock]
  rw [if_pos (by omega :
    (get_text_width m "MICROSOFT PROXY 4" FontKey.huge : Int) >
      1024 - 2 * 40)]
  simp

/-- C2 witness: the concrete table `mC2` (title 1000 px at `huge`),
with the centered positions evaluated. -/
theorem claimC2_witness :
    (get_text_width mC2 "MICROSOFT PROXY 4" FontKey.huge : Int) > 944 ∧
    (generate_no_overlap_layout mC2 1024 768).take 2 =
      [⟨"MICROSOFT", 212, 40, .large, "bright_yellow", .outlined 3⟩,
       ⟨"PROXY 4", 302, 100, .large, "bright_yellow", .outlined 3⟩] :=
  ⟨by decide, (claimC2_end_to_end_split mC2 (by decide)).trans (by decide)⟩

/-- C3: each label whose width is conditionally checked (the title at
`huge`, the subtitle at `large`, the feature callout at `medium`), when its
measured width at the requested tier is at most the available width
(canvas width minus 2×40 margin), is drawn as a single line at that
requested tier, centered, unchanged. -/
theorem claimC3_fit_keeps_tier_single_line (m : Measure) (w h : Int) :
    ((get_text_width m "MICROSOFT PROXY 4" FontKey.huge : Int) ≤
        w - 2 * 40 →
      lineShapes (generate_no_overlap_layout m w h) "MICROSOFT PROXY 4" =
        [("MICROSOFT PROXY 4",
          get_text_center_x m w "MICROSOFT PROXY 4" FontKey.huge,
          FontKey.huge)]) ∧
    ((get_text_width m "EMBEDDED TEMPLATE LIBRARY" FontKey.large : Int) ≤
        w - 2 * 40 →
      lineShapes (generate_no_overlap_layout m w h)
          "EMBEDDED TEMPLATE LIBRARY" =
        [("EMBEDDED TEMPLATE LIBRARY",
          get_text_center_x m w "EMBEDDED TEMPLATE LIBRARY" FontKey.large,
          FontKey.large)]) ∧
    ((get_text_width m "ZERO-ALLOCATION POLYMORPHISM" FontKey.medium : Int) ≤
        w - 2 * 40 →
      lineShapes (generate_no_overlap_layout m w h)
          "ZERO-ALLOCATION POLYMORPHISM" =
        [("ZERO-ALLOCATION POLYMORPHISM",
          get_text_center_x m w "ZERO-ALLOCATION POLYMORPHISM" FontKey.medium,
          FontKey.medium)]) := by
  refine ⟨fun hf => ?_, fun hf => ?_, fun hf => ?_⟩
  · simp only [generate_no_overlap_layout, lineShapes, titleBlock,
      subtitleBlock, featureBlock, benefitBlock, industryBlock, cornerBlock]
    rw [if_neg (by omega :
      ¬ (get_text_width m "MICROSOFT PROXY 4" FontKey.huge : Int) >
        w - 2 * 40)]
    split <;> split <;> simp [List.filter]
  · simp only [generate_no_overlap_layout, lineShapes, titleBlock,
      subtitleBlock, featureBlock, benefitBlock, industryBlock, cornerBlock]
    rw [if_neg (by omega :
      ¬ (get_text_width m "EMBEDDED TEMPLATE LIBRARY" FontKey.large : Int) >
        w - 2 * 40)]
    split <;> split <;> simp [List.filter]
  · simp only [generate_no_overlap_layout, lineShapes, titleBlock,
      subtitleBlock, featureBlock, benefitBlock, industryBlock, cornerBlock]
    rw [if_neg (by omega :
      ¬ (get_text_width m "ZERO-ALLOCATION POLYMORPHISM" FontKey.medium :
          Int) > w - 2 * 40)]
    split <;> split <;> simp [List.filter]

/-- C3 witness: under the table `mC3` every label measures 100 px ≤ 944,
and all three labels come out as one centered line at the requested tier
on the 1024×768 canvas. -/
theorem claimC3_witness :
    ((get_text_width mC3 "MICROSOFT PROXY 4" FontKey.huge : Int) ≤
      1024 - 2 * 40) ∧
    lineShapes (generate_no_overlap_layout mC3 1024 768)
        "MICROSOFT PROXY 4" =
      [("MICROSOFT PROXY 4", 462, FontKey.huge)] ∧
    lineShapes (generate_no_overlap_layout mC3 1024 768)
        "EMBEDDED TEMPLATE LIBRARY" =
      [("EMBEDDED TEMPLATE LIBRARY", 462, FontKey.large)] ∧
    lineShapes (generate_no_overlap_layout mC3 1024 768)
        "ZERO-ALLOCATION POLYMORPHISM" =
      [("ZERO-ALLOCATION POLYMORPHISM", 462, FontKey.medium)] :=
  ⟨by decide,
   ((claimC3_fit_keeps_tier_single_line mC3 1024 768).1 (by decide)).trans
     (by decide),
   ((claimC3_fit_keeps_tier_single_line mC3 1024 768).2.1 (by decide)).trans
     (by decide),
   ((claimC3_fit_keeps_tier_single_line mC3 1024 768).2.2 (by decide)).trans
     (by decide)⟩

/-- C4: each label with no designated split point whose width is
conditionally checked (the subtitle at `large`, the feature callout at
`medium`), when it measures wider than the available width at its
requested tier, is drawn as a single line exactly one font tier below the
requested tier — with no hypothesis about (and hence regardless of)
whether it still overflows at the smaller tier, which is never downgraded
again. -/
theorem claimC4_overflow_downgrades_once (m : Measure) (w h : Int) :
    ((get_text_width m "EMBEDDED TEMPLATE LIBRARY" FontKey.large : Int) >
        w - 2 * 40 →
      lineShapes (generate_no_overlap_layout m w h)
          "EMBEDDED TEMPLATE LIBRARY" =
        [("EMBEDDED TEMPLATE LIBRARY",
          get_text_center_x m w "EMBEDDED TEMPLATE LIBRARY"
            (tierDown FontKey.large),
          tierDown FontKey.large)]) ∧
    ((get_text_width m "ZERO-ALLOCATION POLYMORPHISM" FontKey.medium : Int) >
        w - 2 * 40 →
      lineShapes (generate_no_overlap_layout m w h)
          "ZERO-ALLOCATION POLYMORPHISM" =
        [("ZERO-ALLOCATION POLYMORPHISM",
          get_text_center_x m w "ZERO-ALLOCATION POLYMORPHISM"
            (tierDown FontKey.medium),
          tierDown FontKey.medium)]) := by
  refine ⟨fun hov => ?_, fun hov => ?_⟩
  · simp only [generate_no_overlap_layout, lineShapes, titleBlock,
      subtitleBlock, featureBlock, benefitBlock, industryBlock, cornerBlock]
    rw [if_pos hov]
    split <;> split <;> simp [List.filter, tierDown]
  · simp only [generate_no_overlap_layout, lineShapes, titleBlock,
      subtitleBlock, featureBlock, benefitBlock, industryBlock, cornerBlock]
    rw [if_pos hov]
    split <;> split <;> simp [List.filter, tierDown]

/-- C4 witness: under the table `mC4` every measurement is 10000 px, so
the subtitle and the feature callout overflow at their requested tiers,
are drawn one tier lower (`medium`, `small`) — and still overflow at
those smaller tiers, yet are not downgraded a second time. -/
theorem claimC4_witness :
    ((get_text_width mC4 "EMBEDDED TEMPLATE LIBRARY" FontKey.large : Int) >
      1024 - 2 * 40) ∧
    ((get_text_width mC4 "EMBEDDED TEMPLATE LIBRARY" FontKey.medium : Int) >
      1024 - 2 * 40) ∧
    ((get_text_width mC4 "ZERO-ALLOCATION POLYMORPHISM" FontKey.small :
      Int) > 1024 - 2 * 40) ∧
    lineShapes (generate_no_overlap_layout mC4 1024 768)
        "EMBEDDED TEMPLATE LIBRARY" =
      [("EMBEDDED TEMPLATE LIBRARY", -4488, FontKey.medium)] ∧
    lineShapes (generate_no_overlap_layout mC4 1024 768)
        "ZERO-ALLOCATION POLYMORPHISM" =
      [("ZERO-ALLOCATION POLYMORPHISM", -4488, FontKey.small)] :=
  ⟨by decide, by decide, by decide,
   ((claimC4_overflow_downgrades_once mC4 1024 768).1 (by decide)).trans
     (by decide),
   ((claimC4_overflow_downgrades_once mC4 1024 768).2 (by decide)).trans
     (by decide)⟩

/-- C5: for every measurement table, canvas width, text and tier, the
centered x of `get_text_center_x` is `(width − text width) // 2` under
Python floor division, and `x + width//2 of the text` differs from
`canvas width // 2` by at most one pixel. -/
theorem claimC5_centering_exact (m : Measure) (w : Int) (t : String)
    (k : FontKey) :
    get_text_center_x m w t k =
      Int.fdiv (w - (get_text_width m t k : Int)) 2 ∧
    |(get_text_center_x m w t k + Int.fdiv (get_text_width m t k : Int) 2)
        - Int.fdiv w 2| ≤ 1 := by
  refine ⟨rfl, ?_⟩
  unfold get_text_center_x
  rw [Int.fdiv_eq_ediv _ (by omega), Int.fdiv_eq_ediv _ (by omega),
      Int.fdiv_eq_ediv _ (by omega), abs_le]
  omega

/-- C6: the canvas dimensions are fixed at load time (`__init__` caches
the opened image's size) and are unchanged by any sequence of the drawing
operations of either script — shadow text, outlined text and the full
no-overlap layout for `RetroTextGenerator`; dark panels, glow text and the
full article header for `ArticleImageGenerator`: after running any
operation list, the image buffer still has the load-time width and
height. -/
theorem claimC6_canvas_dims_invariant (path path2 : String)
    (w h w2 h2 : Nat) (ops : List RetroOp) (ops2 : List ArticleOp) :
    ((runRetro (RetroTextGenerator.init path w h) ops).img.width = w ∧
     (runRetro (RetroTextGenerator.init path w h) ops).img.height = h) ∧
    ((runArticle (ArticleImageGenerator.init path2 w2 h2) ops2).img.width
        = w2 ∧
     (runArticle (ArticleImageGenerator.init path2 w2 h2) ops2).img.height
        = h2) :=
  ⟨runRetro_dims ops _, runArticle_dims ops2 _⟩

/-- C7: both `main()` functions exit with status 0 on every input —
success, missing file, or an exception raised anywhere in the processing
sequence — and any caught exception with rendering `e` is reported on
standard output as the single collapsed message
`"Error processing image: " ++ e`, after which `main` returns normally. -/
theorem claimC7_errors_collapse_exit_zero (inP outP inP2 outP2 : String)
    (ex ex2 : Bool) (steps steps2 : Except String SavedFile) :
    (proxy_main inP outP ex steps).exitCode = 0 ∧
    (article_main inP2 outP2 ex2 steps2).exitCode = 0 ∧
    (∀ e, steps = .error e → ex = true →
      ("Error processing image: " ++ e) ∈
        (proxy_main inP outP ex steps).output) ∧
    (∀ e, steps2 = .error e → ex2 = true →
      ("Error processing image: " ++ e) ∈
        (article_main inP2 outP2 ex2 steps2).output) := by
  refine ⟨?_, ?_, ?_, ?_⟩
  · cases ex <;> cases steps <;> rfl
  · cases ex2 <;> cases steps2 <;> rfl
  · intro e he hex
    subst he; subst hex
    simp [proxy_main]
  · intro e he hex
    subst he; subst hex
    simp [article_main]

/-- C7 witness: a failing run of each script (existing input, processing
raising `"boom"` / `"crash"`) exits 0 and prints the collapsed error
line. -/
theorem claimC7_witness :
    (proxy_main "Article_Image.jpg" "proxy4_no_overlap.jpg" true
      (.error "boom")).exitCode = 0 ∧
    ("Error processing image: boom" ∈
      (proxy_main "Article_Image.jpg" "proxy4_no_overlap.jpg" true
        (.error "boom")).output) ∧
    ("Error processing image: crash" ∈
      (article_main "automotive_visualization.jpg"
        "article_header_final.jpg" true (.error "crash")).output) :=
  ⟨(claimC7_errors_collapse_exit_zero "Article_Image.jpg"
      "proxy4_no_overlap.jpg" "automotive_visualization.jpg"
      "article_header_final.jpg" true true (.error "boom")
      (.error "crash")).1,
   (claimC7_errors_collapse_exit_zero "Article_Image.jpg"
      "proxy4_no_overlap.jpg" "automotive_visualization.jpg"
      "article_header_final.jpg" true true (.error "boom")
      (.error "crash")).2.2.1 "boom" rfl rfl,
   (claimC7_errors_collapse_exit_zero "Article_Image.jpg"
      "proxy4_no_overlap.jpg" "automotive_visualization.jpg"
      "article_header_final.jpg" true true (.error "boom")
      (.error "crash")).2.2.2 "crash" rfl rfl⟩

/-- C8: when the input file does not exist, each `main()` prints only the
missing-file report and returns: the `try` block (image open, drawing,
saving) is never entered and no output file is written. -/
theorem claimC8_missing_input_aborts_early (inP outP inP2 outP2 : String)
    (steps steps2 : Except String SavedFile) :
    proxy_main inP outP false steps =
      { output := ["Error: Input file '" ++ inP ++ "' not found!"],
        exitCode := 0, attemptedProcessing := false, written := none } ∧
    article_main inP2 outP2 false steps2 =
      { output := ["Error: Input file '" ++ inP2 ++ "' not found!",
          "Please save the Grok image as 'automotive_visualization.jpg' in the same directory"],
        exitCode := 0, attemptedProcessing := false, written := none } :=
  ⟨rfl, rfl⟩

/-- C9: saving through either `save` method to a `.jpg`/`.jpeg` path
flattens onto a fresh RGB image of `self.img.size`, and reloading the
written JPEG yields exactly the width and height of the in-memory canvas
at save time. -/
theorem claimC9_jpeg_roundtrip_dims (g : RetroTextGenerator)
    (g2 : ArticleImageGenerator) (p q : String)
    (hp : (endsWithStr (lowerStr p) ".jpg"
      || endsWithStr (lowerStr p) ".jpeg") = true)
    (hq : (endsWithStr (lowerStr q) ".jpg"
      || endsWithStr (lowerStr q) ".jpeg") = true) :
    ((loadSaved (g.save p)).width = g.img.width ∧
     (loadSaved (g.save p)).height = g.img.height) ∧
    ((loadSaved (g2.save q)).width = g2.img.width ∧
     (loadSaved (g2.save q)).height = g2.img.height) := by
  constructor
  · unfold RetroTextGenerator.save
    rw [if_pos hp]
    exact ⟨rfl, rfl⟩
  · unfold ArticleImageGenerator.save
    rw [if_pos hq]
    exact ⟨rfl, rfl⟩

/-- C9 witness: the two scripts' actual output paths are `.jpg` paths, and
a freshly loaded 1024×768 (resp. 1280×720) canvas round-trips its
dimensions through save and reload. -/
theorem claimC9_witness :
    (endsWithStr (lowerStr "proxy4_no_overlap.jpg") ".jpg"
      || endsWithStr (lowerStr "proxy4_no_overlap.jpg") ".jpeg") = true ∧
    (loadSaved ((RetroTextGenerator.init "Article_Image.jpg" 1024 768).save
      "proxy4_no_overlap.jpg")).width = 1024 ∧
    (loadSaved ((ArticleImageGenerator.init "automotive_visualization.jpg"
      1280 720).save "article_header_final.jpg")).height = 720 :=
  ⟨by decide,
   (claimC9_jpeg_roundtrip_dims
      (RetroTextGenerator.init "Article_Image.jpg" 1024 768)
      (ArticleImageGenerator.init "automotive_visualization.jpg" 1280 720)
      "proxy4_no_overlap.jpg" "article_header_final.jpg"
      (by decide) (by decide)).1.1,
   (claimC9_jpeg_roundtrip_dims
      (RetroTextGenerator.init "Article_Image.jpg" 1024 768)
      (ArticleImageGenerator.init "automotive_visualization.jpg" 1280 720)
      "proxy4_no_overlap.jpg" "article_header_final.jpg"
      (by decide) (by decide)).2.2⟩

/-- C10: the measurement queries `get_text_width` and `get_text_center_x`
are side-effect-free on the generator state: running any mixed sequence of
drawing operations and measurement calls produces exactly the state (image
buffer, cached size, colors, fonts) of running the drawing operations
alone, so interposed measurements never alter the produced image. -/
theorem claimC10_measurement_is_pure (m : Measure) (g : RetroTextGenerator)
    (ops : List MixedOp) :
    runMixed m g ops = runRetro g (ops.filterMap drawOf) := by
  induction ops generalizing g with
  | nil => rfl
  | cons o ops ih =>
      cases o <;>
        simp [runMixed, runRetro, drawOf, List.filterMap, ih, List.foldl]

end Annotate
